import Mathlib

/-!
Verification of the permission-review reminder tool (src/main.py).

The embedding models the Python module shallowly:
* JSON-like configuration documents are the inductive type `Value`;
  a parsed config document is a `PyDict` (association list).
* Python exceptions are the type `PyErr`; fallible functions return
  `Except PyErr`.
* Side effects (log lines, console prints, SMTP send attempts, and the
  handing of a raw string to the eval built-in) are recorded as `Event`
  values in the order the source produces them.
* The SMTP transport is external, so send outcomes are a parameter
  (`none` = delivered, `some e` = SMTPException with text `e`).
-/

/-- A JSON-like Python value, as produced by json.load. -/
inductive Value where
  | vStr : String → Value
  | vInt : Int → Value
  | vBool : Bool → Value
  | vNull : Value
  | vList : List Value → Value
  | vDict : List (String × Value) → Value

/-- A parsed configuration document: a Python dict keyed by strings. -/
def PyDict := List (String × Value)

/-- Python exceptions relevant to main.py. -/
inductive PyErr where
  | valueError (msg : String)
  | typeError (msg : String)
  | keyError (key : String)
  | smtpException (msg : String)
deriving DecidableEq

/-- Message text of an exception, as str(e) would render it. -/
def pyErrText : PyErr → String
  | .valueError m => m
  | .typeError m => m
  | .keyError k => k
  | .smtpException m => m

/-- Accumulate the decimal value of a nonempty digit run; none on a
non-digit character. -/
def digitsValGo : List Char → Nat → Option Nat
  | [], acc => some acc
  | c :: cs, acc =>
      if c.isDigit then digitsValGo cs (acc * 10 + (c.toNat - 48)) else none

/-- Decimal value of a nonempty all-digit character list. -/
def digitsVal : List Char → Option Nat
  | [] => none
  | c :: cs => digitsValGo (c :: cs) 0

/-- Integer parse of a string, as int(s) does it in Python: surrounding
whitespace stripped, optional sign, nonempty digit run. -/
def pyIntOfString (s : String) : Option Int :=
  let cs := ((s.data.dropWhile Char.isWhitespace).reverse.dropWhile
      Char.isWhitespace).reverse
  match cs with
  | '-' :: rest => (digitsVal rest).map (fun n => -(n : Int))
  | '+' :: rest => (digitsVal rest).map (fun n => (n : Int))
  | rest => (digitsVal rest).map (fun n => (n : Int))

def intNoneMsg : String :=
  "int() argument must be a string, a bytes-like object or a real number, not NoneType"

/-- The int(...) built-in on a Value: ints pass through, bools are a
subclass of int, strings are parsed (ValueError on failure), and
None/list/dict raise TypeError. -/
def pyInt : Value → Except PyErr Int
  | .vInt n => .ok n
  | .vBool b => .ok (if b then 1 else 0)
  | .vStr s =>
      match pyIntOfString s with
      | some n => .ok n
      | none => .error (.valueError ("invalid literal for int() with base 10: " ++ s))
  | .vNull => .error (.typeError intNoneMsg)
  | .vList _ =>
      .error (.typeError "int() argument must be a string, a bytes-like object or a real number, not list")
  | .vDict _ =>
      .error (.typeError "int() argument must be a string, a bytes-like object or a real number, not dict")

/-- The required top-level keys of validate_config, in source order. -/
def requiredKeys : List String :=
  ["permissions_to_review", "reviewers", "smtp_server", "smtp_port", "sender_email"]

/-- The key-presence loop at the top of validate_config: raise ValueError
naming the first key absent from the document. -/
def checkRequiredKeys : List String → PyDict → Except PyErr Unit
  | [], _ => .ok ()
  | k :: ks, cfg =>
      if (List.lookup k cfg).isNone then
        .error (.valueError ("Missing required configuration key: " ++ k))
      else checkRequiredKeys ks cfg

/-- Run a per-element check over a list, stopping at the first failure,
as a Python for loop over raise-ing checks does. -/
def checkEach (f : Value → Except PyErr Unit) : List Value → Except PyErr Unit
  | [] => .ok ()
  | v :: vs =>
      match f v with
      | .error e => .error e
      | .ok () => checkEach f vs

def requiredPermissionKeys : List String :=
  ["description", "permission_details", "review_schedule"]

/-- validate_config body for one entry of permissions_to_review. -/
def check_permission_entry (v : Value) : Except PyErr Unit :=
  match v with
  | .vDict d =>
      match requiredPermissionKeys.find? (fun k => (List.lookup k d).isNone) with
      | some k => .error (.valueError ("Missing required key in permission: " ++ k))
      | none =>
          match List.lookup "permission_details" d with
          | some (.vDict _) =>
              match List.lookup "review_schedule" d with
              | some (.vStr _) => .ok ()
              | _ => .error (.valueError "review_schedule must be a string")
          | _ => .error (.valueError "permission_details must be a dictionary")
  | _ => .error (.valueError "Each permission entry in permissions_to_review must be a dictionary.")

/-- validate_config rules for the permissions_to_review key. -/
def check_permissions (cfg : PyDict) : Except PyErr Unit :=
  match List.lookup "permissions_to_review" cfg with
  | some (.vList l) => checkEach check_permission_entry l
  | some _ => .error (.valueError "permissions_to_review must be a list of dictionaries.")
  | none => .error (.keyError "permissions_to_review")

def requiredReviewerKeys : List String := ["name", "email"]

/-- validate_config body for one entry of reviewers. -/
def check_reviewer_entry (v : Value) : Except PyErr Unit :=
  match v with
  | .vDict d =>
      match requiredReviewerKeys.find? (fun k => (List.lookup k d).isNone) with
      | some k => .error (.valueError ("Missing required key in reviewer: " ++ k))
      | none =>
          match List.lookup "email" d with
          | some (.vStr e) =>
              if e.data.contains '@' then .ok ()
              else .error (.valueError "Reviewer email must be a valid email address.")
          | _ => .error (.valueError "Reviewer email must be a valid email address.")
  | _ => .error (.valueError "Each reviewer entry in reviewers must be a dictionary.")

/-- validate_config rules for the reviewers key. -/
def check_reviewers (cfg : PyDict) : Except PyErr Unit :=
  match List.lookup "reviewers" cfg with
  | some (.vList l) => checkEach check_reviewer_entry l
  | some _ => .error (.valueError "reviewers must be a list of dictionaries.")
  | none => .error (.keyError "reviewers")

/-- validate_config rule for smtp_server. -/
def check_smtp_server (cfg : PyDict) : Except PyErr Unit :=
  match List.lookup "smtp_server" cfg with
  | some (.vStr _) => .ok ()
  | some _ => .error (.valueError "smtp_server must be a string.")
  | none => .error (.keyError "smtp_server")

def portErrMsg : String := "smtp_port must be an integer between 1 and 65535"

/-- validate_config rule for smtp_port: port = int(config[smtp_port]),
range check 0 < port < 65535; the surrounding try catches ValueError only,
so a TypeError from int(...) propagates unchanged. -/
def check_smtp_port (cfg : PyDict) : Except PyErr Unit :=
  match List.lookup "smtp_port" cfg with
  | none => .error (.keyError "smtp_port")
  | some v =>
      match pyInt v with
      | .error (.typeError m) => .error (.typeError m)
      | .error _ => .error (.valueError portErrMsg)
      | .ok p => if 0 < p ∧ p < 65535 then .ok () else .error (.valueError portErrMsg)

/-- validate_config rule for sender_email. -/
def check_sender_email (cfg : PyDict) : Except PyErr Unit :=
  match List.lookup "sender_email" cfg with
  | some (.vStr e) =>
      if e.data.contains '@' then .ok ()
      else .error (.valueError "Sender email must be a valid email address.")
  | _ => .error (.valueError "Sender email must be a valid email address.")

/-- Rules of validate_config that the source runs before the smtp_port
rule: required keys, permission entries, reviewer entries, smtp_server. -/
def validate_pre_port (cfg : PyDict) : Except PyErr Unit :=
  match checkRequiredKeys requiredKeys cfg with
  | .error e => .error e
  | .ok () =>
      match check_permissions cfg with
      | .error e => .error e
      | .ok () =>
          match check_reviewers cfg with
          | .error e => .error e
          | .ok () => check_smtp_server cfg

/-- validate_config from src/main.py: checks the rules in source order,
raising at the first violation. -/
def validate_config (cfg : PyDict) : Except PyErr Unit :=
  match validate_pre_port cfg with
  | .error e => .error e
  | .ok () =>
      match check_smtp_port cfg with
      | .error e => .error e
      | .ok () => check_sender_email cfg

/-- True exactly when the result is a raised ValueError, the error class
the source uses for every schema violation (the ConfigError of the spec). -/
def isValueErrorResult : Except PyErr Unit → Bool
  | .error (.valueError _) => true
  | _ => false

/-- A permission to review, as validated: description, details mapping,
and the recurrence expression string. -/
structure Permission where
  description : String
  permission_details : List (String × String)
  review_schedule : String

/-- A reviewer, as validated: name and email. -/
structure Reviewer where
  name : String
  email : String

/-- The validated configuration as the rest of the program reads it.
smtp_port stays a raw Value: the source passes config[smtp_port] on
unchanged, whatever validation coerced locally. -/
structure Config where
  permissions_to_review : List Permission
  reviewers : List Reviewer
  smtp_server : String
  smtp_port : Value
  sender_email : String

/-- Encode a Permission back into the document shape json.load yields. -/
def rawOfPermission (p : Permission) : Value :=
  .vDict [("description", .vStr p.description),
          ("permission_details",
            .vDict (p.permission_details.map (fun kv => (kv.1, Value.vStr kv.2)))),
          ("review_schedule", .vStr p.review_schedule)]

/-- Encode a Reviewer back into the document shape json.load yields. -/
def rawOfReviewer (r : Reviewer) : Value :=
  .vDict [("name", .vStr r.name), ("email", .vStr r.email)]

/-- Encode a typed Config as the raw parsed document it came from. -/
def rawOf (c : Config) : PyDict :=
  [("permissions_to_review", .vList (c.permissions_to_review.map rawOfPermission)),
   ("reviewers", .vList (c.reviewers.map rawOfReviewer)),
   ("smtp_server", .vStr c.smtp_server),
   ("smtp_port", c.smtp_port),
   ("sender_email", .vStr c.sender_email)]

/-- Observable effects of the program, in source order. evalRaw records
that a string was handed to the eval built-in. -/
inductive Event where
  | logInfo (msg : String)
  | logError (msg : String)
  | consolePrint (msg : String)
  | sendAttempt (subject body recipient server : String) (port : Value) (sender : String)
  | evalRaw (code : String)

/-- send_email from src/main.py: attempt the SMTP transmission; on
success log info, on SMTPException log error and re-raise. The transport
outcome is the parameter smtpResult (none = delivered). -/
def send_email (subject body recipient server : String) (port : Value)
    (sender : String) (smtpResult : Option String) :
    List Event × Option PyErr :=
  let attempt := Event.sendAttempt subject body recipient server port sender
  match smtpResult with
  | none => ([attempt, .logInfo ("Email sent successfully to " ++ recipient)], none)
  | some e =>
      ([attempt, .logError ("Error sending email to " ++ recipient ++ ": " ++ e)],
       some (.smtpException e))

/-- Python str() rendering of the permission_details dict. -/
def renderDetails (d : List (String × String)) : String :=
  "\x7b" ++
    String.intercalate ", "
      (d.map (fun kv => "\x27" ++ kv.1 ++ "\x27: \x27" ++ kv.2 ++ "\x27")) ++
  "\x7d"

/-- Subject line built by create_review_task. -/
def reviewSubject (p : Permission) : String :=
  "Permission Review Required: " ++ p.description

/-- Body built by create_review_task. -/
def reviewBody (p : Permission) (r : Reviewer) : String :=
  "Dear " ++ r.name ++ ", a review is required for the following permission. " ++
  "Description: " ++ p.description ++ " Details: " ++
  renderDetails p.permission_details

/-- create_review_task from src/main.py: format subject and body, call
send_email to reviewer[email], and catch every exception from the send,
logging it instead of re-raising — the error component is none on both
paths. -/
def create_review_task (p : Permission) (r : Reviewer) (server : String)
    (port : Value) (sender : String) (smtpResult : Option String) :
    List Event × Option PyErr :=
  let sent := send_email (reviewSubject p) (reviewBody p r) r.email server port
      sender smtpResult
  match sent.2 with
  | none => (sent.1, none)
  | some e =>
      (sent.1 ++
        [.logError ("Failed to send email for " ++ p.description ++ " review to " ++
          r.email ++ ": " ++ pyErrText e)], none)

/-- The local variables of the schedule_reviews call frame that every job
closure references. Python closures capture these by cell, so all jobs
share one Frame, which after setup holds the last-iterated pair. -/
structure Frame where
  permission : Permission
  reviewer : Reviewer

/-- A registered job. The fields record the (permission, reviewer) pair
the registration was made for; the action a job runs is the shared
closure, see runJob. -/
structure Job where
  registeredPermission : Permission
  registeredReviewer : Reviewer

/-- Invoking a registered job: the closure body is
create_review_task(permission, reviewer, config[...]...) where permission
and reviewer are read from the shared enclosing Frame at call time — the
Job value itself does not enter, because Python closures late-bind the
loop variables. -/
def runJob (cfg : Config) (fr : Frame) (_j : Job) (smtpResult : Option String) :
    List Event × Option PyErr :=
  create_review_task fr.permission fr.reviewer cfg.smtp_server cfg.smtp_port
    cfg.sender_email smtpResult

/-- The (permission, reviewer) pairs visited by the nested loops of
schedule_reviews, in iteration order. -/
def pairsOf (ps : List Permission) (rs : List Reviewer) :
    List (Permission × Reviewer) :=
  ps.flatMap (fun p => rs.map (fun r => (p, r)))

def scheduleOkMsg (p : Permission) (r : Reviewer) : String :=
  "Scheduled review for " ++ p.description ++ " by " ++ r.name ++
  " with schedule: " ++ p.review_schedule

def scheduleFailMsg (p : Permission) (r : Reviewer) : String :=
  "Failed to schedule review for " ++ p.description ++ " by " ++ r.name ++
  " with schedule: " ++ p.review_schedule

/-- Result of schedule_reviews: the registered jobs, the final content of
the loop-variable cells (absent when the loops never ran), and the
events. -/
structure ScheduleResult where
  jobs : List Job
  finalFrame : Option Frame
  events : List Event

/-- schedule_reviews from src/main.py. For every (permission, reviewer)
pair the source interpolates the raw review_schedule string into
eval("schedule." + s + ".do(job)") — recorded as an evalRaw event — and
the per-pair try/except turns a failed evaluation into an error log line
instead of a raised exception. Whether the evaluation succeeds is the
behaviour of the external schedule library, abstracted as the parameter
ok. On success the job is registered; the loop variables end at the last
pair. -/
def schedule_reviews (ok : String → Bool) (config : Config) : ScheduleResult :=
  let pairs := pairsOf config.permissions_to_review config.reviewers
  { jobs :=
      (pairs.filter (fun pr => ok pr.1.review_schedule)).map
        (fun pr => { registeredPermission := pr.1, registeredReviewer := pr.2 })
    finalFrame :=
      pairs.getLast?.map (fun pr => { permission := pr.1, reviewer := pr.2 })
    events :=
      pairs.flatMap (fun pr =>
        Event.evalRaw ("schedule." ++ pr.1.review_schedule ++ ".do(job)") ::
        (if ok pr.1.review_schedule then [Event.logInfo (scheduleOkMsg pr.1 pr.2)]
         else [Event.logError (scheduleFailMsg pr.1 pr.2)])) }

/-- Modelled from the spec: the run loop executes the actions of the due
jobs in registration order within a tick; the schedule library applies no
per-job isolation, so an exception raised by an action propagates out of
run_pending at once and the remaining due actions of the tick are
skipped. Each action is given as its (events, raised exception) outcome. -/
def run_pending : List (List Event × Option PyErr) → List Event × Option PyErr
  | [] => ([], none)
  | act :: rest =>
      match act.2 with
      | some e => (act.1, some e)
      | none =>
          let r := run_pending rest
          (act.1 ++ r.1, r.2)

/-- send_test_email from src/main.py: send to the sender itself, print
and log the outcome, and swallow every exception — the error component is
none on both paths. -/
def send_test_email (server : String) (port : Value) (sender : String)
    (smtpResult : Option String) : List Event × Option PyErr :=
  let sent := send_email "Test Email from Permission Review Tool"
      "This is a test email to verify that the email settings are configured correctly."
      sender server port sender smtpResult
  match sent.2 with
  | none => (sent.1 ++ [.consolePrint "Test email sent successfully. Check your inbox."], none)
  | some e =>
      (sent.1 ++
        [.consolePrint ("Failed to send test email: " ++ pyErrText e),
         .logError ("Failed to send test email: " ++ pyErrText e)], none)

/-- What main does after load and validation succeeded. -/
structure MainModel where
  events : List Event
  registeredJobs : List Job
  entersLoop : Bool
  exitCode : Option Nat

/-- The post-validation branch of main from src/main.py: with the
test-email flag it calls send_test_email and returns (process exit 0
unless an exception escaped, in which case the top-level handler exits 1);
otherwise it registers the review jobs and enters the infinite polling
loop, which never yields an exit code by itself. -/
def main_run (cfg : Config) (test_email : Bool) (ok : String → Bool)
    (smtpResult : Option String) : MainModel :=
  if test_email then
    let res := send_test_email cfg.smtp_server cfg.smtp_port cfg.sender_email smtpResult
    { events := res.1
      registeredJobs := []
      entersLoop := false
      exitCode := some (match res.2 with | none => 0 | some _ => 1) }
  else
    let res := schedule_reviews ok cfg
    { events := res.events
      registeredJobs := res.jobs
      entersLoop := true
      exitCode := none }

/-- Recipients of the send attempts among a list of events. -/
def recipientsOf (evs : List Event) : List String :=
  evs.filterMap (fun e =>
    match e with
    | .sendAttempt _ _ recipient _ _ _ => some recipient
    | _ => none)

/-- Subjects of the send attempts among a list of events. -/
def subjectsOf (evs : List Event) : List String :=
  evs.filterMap (fun e =>
    match e with
    | .sendAttempt subject _ _ _ _ _ => some subject
    | _ => none)

/-- Port values of the send attempts among a list of events. -/
def portsOf (evs : List Event) : List Value :=
  evs.filterMap (fun e =>
    match e with
    | .sendAttempt _ _ _ _ port _ => some port
    | _ => none)

/-- Consume a literal character sequence from the front of a list,
returning the remainder on success. -/
def matchLit : List Char → List Char → Option (List Char)
  | [], rest => some rest
  | _ :: _, [] => none
  | p :: ps, c :: cs => if p = c then matchLit ps cs else none

/-- Split a leading (possibly empty) run of digits off a list. -/
def takeDigits : List Char → List Char × List Char
  | [] => ([], [])
  | c :: cs =>
      if c.isDigit then
        let pr := takeDigits cs
        (c :: pr.1, pr.2)
      else ([], c :: cs)

/-- Consume exactly two digits. -/
def twoDigits : List Char → Option (List Char)
  | a :: b :: rest => if a.isDigit && b.isDigit then some rest else none
  | _ => none

/-- Consume a HH:MM or HH:MM:SS time body. -/
def timeBody (cs : List Char) : Option (List Char) :=
  match twoDigits cs with
  | none => none
  | some r1 =>
      match matchLit [':'] r1 with
      | none => none
      | some r2 =>
          match twoDigits r2 with
          | none => none
          | some r3 =>
              match matchLit [':'] r3 with
              | none => some r3
              | some r4 => twoDigits r4

/-- The single-quote character of the at(...) anchor. -/
def quoteChar : Char := Char.ofNat 39

/-- Consume a complete .at(<quoted HH:MM[:SS]>) anchor ending the
expression. -/
def atClause (cs : List Char) : Bool :=
  match matchLit (".at(".data) cs with
  | none => false
  | some r1 =>
      match matchLit [quoteChar] r1 with
      | none => false
      | some r2 =>
          match timeBody r2 with
          | none => false
          | some r3 =>
              match matchLit [quoteChar, ')'] r3 with
              | some [] => true
              | _ => false

/-- The closed set of units of the recurrence grammar. -/
def grammarUnits : List String :=
  ["seconds", "minutes", "hours", "days", "weeks",
   "second", "minute", "hour", "day", "week",
   "monday", "tuesday", "wednesday", "thursday", "friday", "saturday", "sunday"]

/-- Modelled from the spec: the closed recurrence grammar of a
review_schedule value — every(<optional integer>).<unit> with an optional
.at(<HH:MM[:SS]>) anchor, the units drawn from the closed list. This is
the spec-side definition the scheduling code is compared against; the
source itself contains no such parser. -/
def grammarParse (s : String) : Bool :=
  match matchLit ("every(".data) s.data with
  | none => false
  | some r1 =>
      let pr := takeDigits r1
      match matchLit (").".data) pr.2 with
      | none => false
      | some r2 =>
          grammarUnits.any (fun u =>
            match matchLit u.data r2 with
            | none => false
            | some [] => true
            | some rest => atClause rest)

/-- Closed form of the registered jobs of schedule_reviews. -/
theorem schedule_reviews_jobs_eq (ok : String → Bool) (cfg : Config) :
    (schedule_reviews ok cfg).jobs
      = ((pairsOf cfg.permissions_to_review cfg.reviewers).filter
          (fun pr => ok pr.1.review_schedule)).map
          (fun pr => { registeredPermission := pr.1, registeredReviewer := pr.2 }) := rfl

/-- Closed form of the events of schedule_reviews. -/
theorem schedule_reviews_events_eq (ok : String → Bool) (cfg : Config) :
    (schedule_reviews ok cfg).events
      = (pairsOf cfg.permissions_to_review cfg.reviewers).flatMap (fun pr =>
          Event.evalRaw ("schedule." ++ pr.1.review_schedule ++ ".do(job)") ::
          (if ok pr.1.review_schedule then [Event.logInfo (scheduleOkMsg pr.1 pr.2)]
           else [Event.logError (scheduleFailMsg pr.1 pr.2)])) := rfl

/-- Membership in the iteration pairs is membership in both input lists. -/
theorem mem_pairsOf (ps : List Permission) (rs : List Reviewer)
    (pr : Permission × Reviewer) : pr ∈ pairsOf ps rs ↔ pr.1 ∈ ps ∧ pr.2 ∈ rs := by
  cases pr with
  | mk p r =>
      simp only [pairsOf, List.mem_flatMap, List.mem_map, Prod.mk.injEq]
      constructor
      · rintro ⟨a, ha, b, hb, hab, hbr⟩
        subst hab; subst hbr; exact ⟨ha, hb⟩
      · rintro ⟨hp, hr⟩
        exact ⟨p, hp, r, hr, rfl, rfl⟩

/-- The nested loops visit exactly the product of the two lists. -/
theorem pairsOf_length (ps : List Permission) (rs : List Reviewer) :
    (pairsOf ps rs).length = ps.length * rs.length := by
  induction ps with
  | nil => simp [pairsOf]
  | cons p ps ih =>
      simp only [pairsOf, List.flatMap_cons, List.length_append, List.length_map,
        List.length_cons] at *
      rw [ih]
      ring

/-- The try/except inside create_review_task absorbs every exception of
the send: the returned error component is always none. -/
theorem create_review_task_absorbs (p : Permission) (r : Reviewer)
    (server : String) (port : Value) (sender : String) (o : Option String) :
    (create_review_task p r server port sender o).2 = none := by
  cases o <;> rfl

/-- Fixtures: a small concrete configuration with two permissions and two
reviewers, used to evaluate the model on closed inputs. -/
def p1 : Permission :=
  { description := "perm-one", permission_details := [],
    review_schedule := "every(1).minutes" }

def p2 : Permission :=
  { description := "perm-two", permission_details := [],
    review_schedule := "every(2).hours" }

def r1 : Reviewer := { name := "Alice", email := "alice@example.com" }

def r2 : Reviewer := { name := "Bob", email := "bob@example.com" }

def c1cfg : Config :=
  { permissions_to_review := [p1, p2], reviewers := [r1, r2],
    smtp_server := "localhost", smtp_port := .vInt 25,
    sender_email := "sender@example.com" }

/-- A permission whose review_schedule is not a phrase of the recurrence
grammar. -/
def pBad : Permission :=
  { description := "debug-access", permission_details := [],
    review_schedule := "every(1).minutes or leak(secrets)" }

def badCfg : Config :=
  { permissions_to_review := [pBad], reviewers := [r1],
    smtp_server := "localhost", smtp_port := .vInt 25,
    sender_email := "sender@example.com" }

def cfg6 : Config :=
  { permissions_to_review := [pBad, p1], reviewers := [r1, r2],
    smtp_server := "localhost", smtp_port := .vInt 25,
    sender_email := "sender@example.com" }

/-- A valid single-pair configuration parameterized by the smtp_port
value. -/
def cfgWithPort (v : Value) : Config :=
  { permissions_to_review := [p1], reviewers := [r1],
    smtp_server := "localhost", smtp_port := v,
    sender_email := "sender@example.com" }

/-- Claim C1 (refuted, code bug): with two distinct permissions and two
distinct reviewers the four registered jobs do NOT produce four distinct
(permission, reviewer) argument combinations. The four registrations are
made for four distinct pairs, but every job closure reads the shared loop
variables, which after setup hold the last pair, so each invocation calls
create_review_task with (perm-two, Bob): all four send attempts address
the last reviewer about the last permission. -/
theorem late_binding_invokes_last_pair :
    ((schedule_reviews (fun _ => true) c1cfg).jobs.map
        (fun j => (j.registeredPermission.description, j.registeredReviewer.email)))
      = [("perm-one", "alice@example.com"), ("perm-one", "bob@example.com"),
         ("perm-two", "alice@example.com"), ("perm-two", "bob@example.com")]
  ∧ (schedule_reviews (fun _ => true) c1cfg).finalFrame
      = some { permission := p2, reviewer := r2 }
  ∧ ((schedule_reviews (fun _ => true) c1cfg).jobs.map
        (fun j => recipientsOf (runJob c1cfg { permission := p2, reviewer := r2 } j none).1))
      = [["bob@example.com"], ["bob@example.com"], ["bob@example.com"], ["bob@example.com"]]
  ∧ ((schedule_reviews (fun _ => true) c1cfg).jobs.map
        (fun j => subjectsOf (runJob c1cfg { permission := p2, reviewer := r2 } j none).1))
      = [["Permission Review Required: perm-two"], ["Permission Review Required: perm-two"],
         ["Permission Review Required: perm-two"], ["Permission Review Required: perm-two"]] :=
  ⟨rfl, rfl, rfl, rfl⟩

/-- Claim C2 (refuted, code bug): schedule setup does not validate the
review_schedule string against the recurrence grammar; it interpolates
the raw string into an eval call for every pair. Here a string that is
outside the grammar passes config validation and is handed verbatim to
the evaluator. -/
theorem raw_schedule_string_reaches_eval :
    grammarParse pBad.review_schedule = false
  ∧ grammarParse "every(30).minutes" = true
  ∧ validate_config (rawOf badCfg) = Except.ok ()
  ∧ (schedule_reviews grammarParse badCfg).events
      = [Event.evalRaw "schedule.every(1).minutes or leak(secrets).do(job)",
         Event.logError (scheduleFailMsg pBad r1)] :=
  ⟨rfl, rfl, rfl, rfl⟩

/-- Claim C3: a tick of the run loop executes the actions of all due
jobs and raises nothing, whatever the delivery outcome of each job. The
only exception a registered action can meet is the delivery failure of
its send, and create_review_task absorbs it, so even under the
no-isolation semantics of run_pending (a raised exception would abort the
tick) every due job runs, the events of the tick are the concatenation of
every job's events, and the loop reaches its next tick. -/
theorem tick_processes_all_due_jobs (cfg : Config) (fr : Frame)
    (outcomes : List (Option String)) :
    run_pending (outcomes.map (fun o =>
        create_review_task fr.permission fr.reviewer cfg.smtp_server cfg.smtp_port
          cfg.sender_email o))
      = ((outcomes.map (fun o =>
            (create_review_task fr.permission fr.reviewer cfg.smtp_server cfg.smtp_port
              cfg.sender_email o).1)).flatten, none) := by
  induction outcomes with
  | nil => rfl
  | cons o os ih =>
      simp only [List.map_cons, run_pending, create_review_task_absorbs, ih,
        List.flatten_cons]

/-- Claim C4 counterexample: a config whose smtp_port is null is not
integer-coercible, yet validate_config does not raise the schema
violation ValueError: the int(...) call raises TypeError, which the
except ValueError clause does not catch, so the TypeError propagates. -/
theorem smtp_port_null_raises_type_error :
    validate_config (rawOf (cfgWithPort Value.vNull))
        = Except.error (PyErr.typeError intNoneMsg)
  ∧ isValueErrorResult (validate_config (rawOf (cfgWithPort Value.vNull))) = false :=
  ⟨rfl, rfl⟩

/-- Claim C4 as amended: when the rules before smtp_port pass, a port
value coercing to an integer strictly between 0 and 65535 passes the
rule; a coercible value outside the range, or a string that fails integer
parsing, makes validate_config raise ValueError; a value whose coercion
raises TypeError (null, list, dict) makes validate_config propagate that
TypeError instead. -/
theorem validate_config_smtp_port_amended (cfg : PyDict) (v : Value)
    (hpre : validate_pre_port cfg = Except.ok ())
    (hv : List.lookup "smtp_port" cfg = some v) :
    (∀ p : Int, pyInt v = Except.ok p → 0 < p → p < 65535 →
        check_smtp_port cfg = Except.ok ())
  ∧ (∀ p : Int, pyInt v = Except.ok p → ¬(0 < p ∧ p < 65535) →
        validate_config cfg = Except.error (PyErr.valueError portErrMsg))
  ∧ (∀ m : String, pyInt v = Except.error (PyErr.valueError m) →
        validate_config cfg = Except.error (PyErr.valueError portErrMsg))
  ∧ (∀ m : String, pyInt v = Except.error (PyErr.typeError m) →
        validate_config cfg = Except.error (PyErr.typeError m)) := by
  refine ⟨?_, ?_, ?_, ?_⟩
  · intro p hp h0 h1
    simp [check_smtp_port, hv, hp, h0, h1]
  · intro p hp hrange
    simp [validate_config, hpre, check_smtp_port, hv, hp, hrange]
  · intro m hm
    simp [validate_config, hpre, check_smtp_port, hv, hm]
  · intro m hm
    simp [validate_config, hpre, check_smtp_port, hv, hm]

/-- Witness for the amended C4 theorem: the string port 25 passes the
rule, and the null port propagates TypeError. -/
theorem validate_config_smtp_port_amended_witness :
    validate_pre_port (rawOf (cfgWithPort (Value.vStr "25"))) = Except.ok ()
  ∧ List.lookup "smtp_port" (rawOf (cfgWithPort (Value.vStr "25")))
      = some (Value.vStr "25")
  ∧ pyInt (Value.vStr "25") = Except.ok 25
  ∧ check_smtp_port (rawOf (cfgWithPort (Value.vStr "25"))) = Except.ok ()
  ∧ validate_config (rawOf (cfgWithPort Value.vNull))
      = Except.error (PyErr.typeError intNoneMsg) := by
  refine ⟨rfl, rfl, rfl, ?_, ?_⟩
  · exact (validate_config_smtp_port_amended (rawOf (cfgWithPort (Value.vStr "25")))
      (Value.vStr "25") rfl rfl).1 25 rfl (by decide) (by decide)
  · exact (validate_config_smtp_port_amended (rawOf (cfgWithPort Value.vNull))
      Value.vNull rfl rfl).2.2.2 intNoneMsg rfl

/-- Claim C5: on a validated config in which every review_schedule
evaluates successfully, schedule_reviews registers exactly
|permissions_to_review| times |reviewers| jobs, one per pair. -/
theorem schedule_reviews_job_count (ok : String → Bool) (cfg : Config)
    (hv : validate_config (rawOf cfg) = Except.ok ())
    (hall : ∀ p ∈ cfg.permissions_to_review, ok p.review_schedule = true) :
    (schedule_reviews ok cfg).jobs.length
      = cfg.permissions_to_review.length * cfg.reviewers.length := by
  have hfilter : (pairsOf cfg.permissions_to_review cfg.reviewers).filter
        (fun pr => ok pr.1.review_schedule)
      = pairsOf cfg.permissions_to_review cfg.reviewers := by
    apply List.filter_eq_self.mpr
    intro pr hpr
    exact hall pr.1 ((mem_pairsOf _ _ pr).mp hpr).1
  rw [schedule_reviews_jobs_eq, hfilter, List.length_map, pairsOf_length]

/-- Witness for C5: the two-by-two fixture registers four jobs. -/
theorem schedule_reviews_job_count_witness :
    validate_config (rawOf c1cfg) = Except.ok ()
  ∧ (schedule_reviews (fun _ => true) c1cfg).jobs.length
      = c1cfg.permissions_to_review.length * c1cfg.reviewers.length :=
  ⟨rfl, schedule_reviews_job_count (fun _ => true) c1cfg rfl (fun _ _ => rfl)⟩

/-- Claim C6: when one permission has a schedule string that fails to
evaluate, setup registers the job of every pair whose schedule succeeds,
logs the failure of the bad permission for each of its reviewers, and
registers no pair of the failing permission; the model of setup is a
total function, so setup neither aborts nor raises. -/
theorem schedule_reviews_skips_only_failing_pairs (ok : String → Bool)
    (cfg : Config) (p : Permission) (hp : p ∈ cfg.permissions_to_review)
    (hbad : ok p.review_schedule = false)
    (q : Permission) (r : Reviewer)
    (hq : q ∈ cfg.permissions_to_review) (hr : r ∈ cfg.reviewers)
    (hok : ok q.review_schedule = true) :
    ({ registeredPermission := q, registeredReviewer := r } : Job)
        ∈ (schedule_reviews ok cfg).jobs
  ∧ (∀ r2 ∈ cfg.reviewers,
      Event.logError (scheduleFailMsg p r2) ∈ (schedule_reviews ok cfg).events)
  ∧ (∀ r2 : Reviewer,
      ({ registeredPermission := p, registeredReviewer := r2 } : Job)
        ∉ (schedule_reviews ok cfg).jobs) := by
  refine ⟨?_, ?_, ?_⟩
  · rw [schedule_reviews_jobs_eq]
    apply List.mem_map.mpr
    refine ⟨(q, r), ?_, rfl⟩
    exact List.mem_filter.mpr ⟨(mem_pairsOf _ _ (q, r)).mpr ⟨hq, hr⟩, hok⟩
  · intro r2 hr2
    rw [schedule_reviews_events_eq]
    apply List.mem_flatMap.mpr
    refine ⟨(p, r2), (mem_pairsOf _ _ (p, r2)).mpr ⟨hp, hr2⟩, ?_⟩
    simp [hbad]
  · intro r2 hmem
    rw [schedule_reviews_jobs_eq] at hmem
    rcases List.mem_map.mp hmem with ⟨pr, hpr, heq⟩
    have h2 := (List.mem_filter.mp hpr).2
    have h1 : pr.1 = p := congrArg Job.registeredPermission heq
    rw [h1] at h2
    rw [hbad] at h2
    cases h2

/-- Witness for C6: with the grammar as success predicate, the good
permission of cfg6 is registered for the first reviewer and the failure
of the bad permission is logged for the second reviewer. -/
theorem schedule_reviews_skips_only_failing_pairs_witness :
    pBad ∈ cfg6.permissions_to_review
  ∧ grammarParse pBad.review_schedule = false
  ∧ grammarParse p1.review_schedule = true
  ∧ ({ registeredPermission := p1, registeredReviewer := r1 } : Job)
      ∈ (schedule_reviews grammarParse cfg6).jobs
  ∧ Event.logError (scheduleFailMsg pBad r2) ∈ (schedule_reviews grammarParse cfg6).events := by
  have h := schedule_reviews_skips_only_failing_pairs grammarParse cfg6 pBad
    (List.mem_cons_self _ _) rfl p1 r1
    (List.mem_cons_of_mem _ (List.mem_cons_self _ _)) (List.mem_cons_self _ _) rfl
  exact ⟨List.mem_cons_self _ _, rfl, rfl, h.1,
    h.2.1 r2 (List.mem_cons_of_mem _ (List.mem_cons_self _ _))⟩

/-- The key-presence loop raises on the first missing key of the list. -/
theorem checkRequiredKeys_first_missing (ks : List String) (cfg : PyDict)
    (k : String)
    (h : ks.find? (fun k2 => (List.lookup k2 cfg).isNone) = some k) :
    checkRequiredKeys ks cfg
      = .error (.valueError ("Missing required configuration key: " ++ k)) := by
  induction ks with
  | nil => simp [List.find?] at h
  | cons a as ih =>
      cases ha : (List.lookup a cfg).isNone with
      | true =>
          simp only [List.find?, ha, Option.some.injEq] at h
          subst h
          simp [checkRequiredKeys, ha]
      | false =>
          simp only [List.find?, ha] at h
          simp only [checkRequiredKeys, ha, Bool.false_eq_true, if_false]
          exact ih h

/-- Claim C7: a parsed config document missing at least one required
top-level key makes validate_config raise ValueError naming the first
missing key of the fixed order, whatever else the document violates:
the key-presence rule runs first and its first failure wins. -/
theorem validate_config_names_first_missing_key (cfg : PyDict) (k : String)
    (h : requiredKeys.find? (fun k2 => (List.lookup k2 cfg).isNone) = some k) :
    validate_config cfg
      = .error (.valueError ("Missing required configuration key: " ++ k)) := by
  have h1 := checkRequiredKeys_first_missing requiredKeys cfg k h
  simp [validate_config, validate_pre_port, h1]

/-- Witness for C7: the empty document is missing every key and the
error names the first one. -/
theorem validate_config_names_first_missing_key_witness :
    requiredKeys.find? (fun k2 => (List.lookup k2 ([] : PyDict)).isNone)
        = some "permissions_to_review"
  ∧ validate_config ([] : PyDict)
      = .error (.valueError
          ("Missing required configuration key: " ++ "permissions_to_review")) :=
  ⟨rfl, validate_config_names_first_missing_key [] "permissions_to_review" rfl⟩

/-- Claim C8: in test-email mode on a valid config, main attempts exactly
one send, addressed to the configured sender_email itself, registers no
jobs, and never enters the polling loop. -/
theorem test_email_mode_single_send (cfg : Config) (ok : String → Bool)
    (hv : validate_config (rawOf cfg) = Except.ok ()) :
    recipientsOf (main_run cfg true ok none).events = [cfg.sender_email]
  ∧ (main_run cfg true ok none).registeredJobs = []
  ∧ (main_run cfg true ok none).entersLoop = false :=
  ⟨rfl, rfl, rfl⟩

/-- Witness for C8 on the concrete fixture. -/
theorem test_email_mode_single_send_witness :
    validate_config (rawOf c1cfg) = Except.ok ()
  ∧ recipientsOf (main_run c1cfg true grammarParse none).events = [c1cfg.sender_email]
  ∧ (main_run c1cfg true grammarParse none).registeredJobs = []
  ∧ (main_run c1cfg true grammarParse none).entersLoop = false := by
  have h := test_email_mode_single_send c1cfg grammarParse rfl
  exact ⟨rfl, h.1, h.2.1, h.2.2⟩

/-- Claim C9: validation never changes the document; a config whose
smtp_port is the original string accepted by validation hands exactly
that string — not the locally coerced integer — as the port of the send
performed by an invoked job. -/
theorem validated_port_string_flows_raw (cfg : Config) (s : String)
    (hs : cfg.smtp_port = Value.vStr s)
    (hv : validate_config (rawOf cfg) = Except.ok ())
    (fr : Frame) (j : Job) (o : Option String) :
    portsOf (runJob cfg fr j o).1 = [Value.vStr s] := by
  cases o <;> simp [runJob, create_review_task, send_email, portsOf, hs]

/-- Witness for C9: the digit-string port 25 is accepted by validation
and flows un-coerced into the send attempt. -/
theorem validated_port_string_flows_raw_witness :
    (cfgWithPort (Value.vStr "25")).smtp_port = Value.vStr "25"
  ∧ validate_config (rawOf (cfgWithPort (Value.vStr "25"))) = Except.ok ()
  ∧ portsOf (runJob (cfgWithPort (Value.vStr "25"))
        { permission := p1, reviewer := r1 }
        { registeredPermission := p1, registeredReviewer := r1 } none).1
      = [Value.vStr "25"] := by
  refine ⟨rfl, rfl, ?_⟩
  exact validated_port_string_flows_raw (cfgWithPort (Value.vStr "25")) "25" rfl rfl
    { permission := p1, reviewer := r1 }
    { registeredPermission := p1, registeredReviewer := r1 } none

/-- Claim C10: in test-email mode a failed send still ends in a normal
exit with code 0: send_test_email catches the exception, prints and logs
the failure, and returns, so main terminates normally and no loop is
entered. -/
theorem test_email_failure_exits_zero (cfg : Config) (ok : String → Bool)
    (e : String) :
    (main_run cfg true ok (some e)).exitCode = some 0
  ∧ (main_run cfg true ok (some e)).entersLoop = false
  ∧ Event.consolePrint ("Failed to send test email: " ++ e)
      ∈ (main_run cfg true ok (some e)).events
  ∧ Event.logError ("Failed to send test email: " ++ e)
      ∈ (main_run cfg true ok (some e)).events := by
  refine ⟨rfl, rfl, ?_, ?_⟩ <;>
    simp [main_run, send_test_email, send_email, pyErrText]
